import Mathlib

/-!
Shallow embedding of the license validation and lifecycle state machine of
the `authentication` server (src/server.js).

Conventions of the embedding:
* SQLite integer columns are `Int`; nullable columns are `Option _`.
* Timestamps (JavaScript `Date` values and ISO strings in the database) are
  milliseconds since the epoch, as `Int`.  JavaScript date arithmetic
  (`setSeconds`/`setMinutes`/`setHours`/`setDate` with an added offset) is
  modelled as adding the corresponding number of milliseconds.
* JavaScript truthiness on nullable strings/integers is modelled explicitly
  (`strTruthy`, `intTruthy`): `null`/`undefined`, the empty string and the
  integer 0 are falsy.
* Each endpoint handler is modelled after its permission / session /
  row-lookup plumbing has succeeded: the functions take the already fetched
  license row (and joined application columns) and return the structured
  result together with the license row as left in the database and, for the
  check endpoint, whether the usage-cache upsert ran.  Webhook dispatch and
  activity logging are read-only with respect to the license row and are not
  modelled.
-/

namespace LicenseServer

/-- Truthiness of a nullable string as JavaScript sees it: `null`/`undefined`
and the empty string are falsy. -/
def strTruthy : Option String → Bool
  | none => false
  | some s => s != ""

/-- Truthiness of a nullable integer as JavaScript sees it: `null`/`undefined`
and 0 are falsy. -/
def intTruthy : Option Int → Bool
  | none => false
  | some v => v != 0

/-- Truthiness of a stored timestamp.  Timestamps are persisted as ISO-8601
strings, and any stored date string is non-empty, so a timestamp is truthy
exactly when it is non-null (the epoch instant 0 included). -/
def timeTruthy : Option Int → Bool
  | none => false
  | some _ => true

/-- Model of JavaScript `String.prototype.trim`: strip leading and trailing
whitespace. -/
def jsTrim (s : String) : String :=
  ⟨((s.data.dropWhile Char.isWhitespace).reverse.dropWhile Char.isWhitespace).reverse⟩

/-- Milliseconds represented by one unit of the given duration unit, per the
`switch (durationUnit)` in `calculateExpirationDate` (src/server.js:2808):
seconds, minutes, hours, days; any unrecognized unit falls through to the
`default` case, which behaves like days. -/
def unitMillis (durationUnit : String) : Int :=
  if durationUnit = "seconds" then 1000
  else if durationUnit = "minutes" then 60000
  else if durationUnit = "hours" then 3600000
  else if durationUnit = "days" then 86400000
  else 86400000

/-- The expiration instant `now + value` in the given unit (the non-null
branch of `calculateExpirationDate`), with the clock `now` injected. -/
def calcExpiration (now durationValue : Int) (durationUnit : String) : Int :=
  now + durationValue * unitMillis durationUnit

/-- Model of `calculateExpirationDate(durationValue, durationUnit, isUnlimited)`
(src/server.js:2808): `null` when `isUnlimited`, otherwise `now + value` in
the given unit. -/
def calculateExpirationDate (now durationValue : Int) (durationUnit : String)
    (isUnlimited : Bool) : Option Int :=
  if isUnlimited then none
  else some (calcExpiration now durationValue durationUnit)

/-- Integer ceiling division, modelling `Math.ceil(a / b)` for integral `a`
and positive integral `b` (used for `days_remaining`). -/
def ceilDiv (a b : Int) : Int := -((-a).fdiv b)

/-- The license row as selected by the check/pause/extend handlers.  Flags are
the raw integer columns; nullable columns are options.  Defaults mirror the
schema defaults (`is_active` 1, moderation flags 0, everything else null). -/
structure LicenseRow where
  license_key : String := ""
  is_active : Int := 1
  is_banned : Int := 0
  is_paused : Int := 0
  is_unlimited : Int := 0
  expires_at : Option Int := none
  duration_value : Option Int := none
  duration_unit : Option String := none
  locked_hwid : Option String := none
  paused_at : Option Int := none
  paused_expires_at : Option Int := none
deriving DecidableEq, Repr

/-- The application columns joined onto the license row by the check query
(`a.version as app_version`, `a.hwid_lock_enabled`).  Webhook and naming
columns only feed notifications and are omitted: they never influence the
decision or the license-row effects. -/
structure ApplicationRow where
  version : Option String := none
  hwid_lock_enabled : Option Int := none
deriving DecidableEq, Repr

/-- The request fields of `/api/licenses/check` that influence the decision
(`hwid`, `app_version`); the enrichment-only fields are omitted. -/
structure CheckRequest where
  hwid : Option String := none
  app_version : Option String := none
deriving DecidableEq, Repr

/-- Structured check result: one constructor per terminal branch of the
check handler, with the success payload fields that the claims mention. -/
inductive CheckResult where
  | versionMismatch
  | bannedReject
  | pausedReject
  | inactiveReject
  | hwidRequired
  | hwidMismatch
  | expiredReject
  | configError
  | accepted (expires_at : Option Int) (is_unlimited : Bool) (is_activated : Bool)
      (days_remaining : Option Int)
deriving DecidableEq, Repr

/-- Whether a check result is the success payload. -/
def CheckResult.isSuccess : CheckResult → Bool
  | .accepted _ _ _ _ => true
  | _ => false

/-- Outcome of one check call: the structured response, the license row as
left in the database, and whether the usage-cache upsert was executed. -/
structure CheckOutcome where
  result : CheckResult
  lic : LicenseRow
  usageWritten : Bool
deriving DecidableEq, Repr

/-- The version gate of the check handler:
`app_version && license.app_version && license.app_version !== app_version`
(both version strings truthy and different). -/
def versionGateFires (app : ApplicationRow) (req : CheckRequest) : Bool :=
  strTruthy req.app_version && strTruthy app.version && (app.version != req.app_version)

/-- The HWID-lock toggle resolution of the check handler: the joined
`hwid_lock_enabled` column is non-null and equals 1 (the handler also accepts
the string `'1'` and boolean `true`, which denote the same stored value). -/
def hwidLockOf (app : ApplicationRow) : Bool :=
  decide (app.hwid_lock_enabled = some 1)

/-- The missing-hwid test of the activation branch:
`!hwid || hwid.trim() === ''`. -/
def jsHwidMissing : Option String → Bool
  | none => true
  | some s => s == "" || jsTrim s == ""

/-- `timeRemaining` of the check handler:
null unless the license is duration-based and an expiry is at hand, else the
ceiling of whole days between the expiry and now. -/
def daysRemaining (isUnlimited : Int) (expiresAt : Option Int) (now : Int) : Option Int :=
  if isUnlimited = 0 then
    match expiresAt with
    | some e => some (ceilDiv (e - now) 86400000)
    | none => none
  else none

/-- Tail of the already-activated branch of the check handler, entered after
the hardware-lock sub-policy has fallen through with the (possibly mutated)
license row `lic1`: compare the stored expiry `e` against `now`; if expired,
reject without the usage upsert; otherwise upsert usage and accept. -/
def activatedTail (lic1 : LicenseRow) (e now : Int) : CheckOutcome :=
  if now > e then ⟨.expiredReject, lic1, false⟩
  else
    ⟨.accepted (some e) (decide (lic1.is_unlimited = 1)) true
        (daysRemaining lic1.is_unlimited (some e) now),
      lic1, true⟩

/-- Model of the `/api/licenses/check` handler (src/server.js:898) after the
row lookup has succeeded (the SQL join also requires `l.is_active = 1` on the
found row; that precondition is stated in the theorems, not baked in here).
Transcribes the decision chain: version gate, banned, paused, inactive, then
the three-way branch on activation state (not-yet-activated duration license /
already-activated / unlimited), the hardware-lock sub-policy, the expiry
resolution, the usage-cache upsert, and the success payload. -/
def checkLicense (lic : LicenseRow) (app : ApplicationRow) (req : CheckRequest)
    (now : Int) : CheckOutcome :=
  if versionGateFires app req = true then ⟨.versionMismatch, lic, false⟩
  else if lic.is_banned = 1 then ⟨.bannedReject, lic, false⟩
  else if lic.is_paused = 1 then ⟨.pausedReject, lic, false⟩
  else if lic.is_active = 0 then ⟨.inactiveReject, lic, false⟩
  else if lic.is_unlimited = 0 ∧ lic.expires_at = none ∧
      intTruthy lic.duration_value = true ∧ strTruthy lic.duration_unit = true then
    -- not-yet-activated duration license: activate (binding hwid when locked)
    if hwidLockOf app = true ∧ jsHwidMissing req.hwid = true then
      ⟨.hwidRequired, lic, false⟩
    else
      let expiresAt := calcExpiration now (lic.duration_value.getD 0) (lic.duration_unit.getD "")
      let lic1 :=
        if hwidLockOf app = true ∧ strTruthy req.hwid = true then
          { lic with expires_at := some expiresAt, locked_hwid := req.hwid }
        else
          { lic with expires_at := some expiresAt, locked_hwid := none }
      ⟨.accepted (some expiresAt) (decide (lic.is_unlimited = 1)) true
          (daysRemaining lic.is_unlimited (some expiresAt) now),
        lic1, true⟩
  else
    match lic.expires_at with
    | some e =>
        -- already-activated license: hardware-lock sub-policy, then expiry
        if hwidLockOf app = true then
          if strTruthy lic.locked_hwid = false then
            activatedTail
              (if strTruthy req.hwid = true then { lic with locked_hwid := req.hwid } else lic)
              e now
          else if lic.locked_hwid ≠ req.hwid then ⟨.hwidMismatch, lic, false⟩
          else activatedTail lic e now
        else
          activatedTail
            (if strTruthy lic.locked_hwid = true then { lic with locked_hwid := none } else lic)
            e now
    | none =>
        if lic.is_unlimited ≠ 0 then
          -- unlimited license: hardware-lock sub-policy, no expiry comparison
          let lic1 :=
            if hwidLockOf app = true then
              if strTruthy lic.locked_hwid = false ∧ strTruthy req.hwid = true then
                { lic with locked_hwid := req.hwid }
              else lic
            else
              if strTruthy lic.locked_hwid = true then { lic with locked_hwid := none } else lic
          ⟨.accepted none (decide (lic.is_unlimited = 1)) true
              (daysRemaining lic.is_unlimited none now),
            lic1, true⟩
        else ⟨.configError, lic, false⟩

/-- Result of the single-license pause handler. -/
inductive PauseOutcome where
  | notActiveErr
  | bannedErr
  | expiredErr
  | paused
deriving DecidableEq, Repr

/-- The expired test of the pause handler: rejects when the license is not
unlimited, has a stored expiry, and that expiry is at or before now
(`expiresAt <= now`). -/
def pauseExpiredGate (lic : LicenseRow) (now : Int) : Bool :=
  decide (lic.is_unlimited ≠ 1) && timeTruthy lic.expires_at &&
    (match lic.expires_at with
     | some e => decide (e ≤ now)
     | none => false)

/-- Model of `/api/licenses/:licenseKey/pause` (src/server.js:4449) after the
row lookup succeeded: reject unless `is_active = 1`; reject if banned; reject
if not unlimited and the stored expiry is at or before now; otherwise set
`is_paused = 1`, `paused_at = now`, `paused_expires_at = expires_at`. -/
def pauseLicense (lic : LicenseRow) (now : Int) : PauseOutcome × LicenseRow :=
  if lic.is_active ≠ 1 then (.notActiveErr, lic)
  else if lic.is_banned = 1 then (.bannedErr, lic)
  else if pauseExpiredGate lic now = true then (.expiredErr, lic)
  else
    (.paused,
      { lic with is_paused := 1, paused_at := some now, paused_expires_at := lic.expires_at })

/-- Model of `/api/licenses/:licenseKey/unpause` (src/server.js:4519) after
the row lookup succeeded: when `paused_expires_at` is set, the new expiry is
`paused_expires_at + (now - paused_at)` (with `paused_at` defaulting to now
when null); otherwise the current `expires_at` is kept (null stays null).
Clears the pause bookkeeping columns. -/
def unpauseLicense (lic : LicenseRow) (now : Int) : LicenseRow :=
  let newExpiresAt : Option Int :=
    match lic.paused_expires_at with
    | some pe =>
        let pausedAt := lic.paused_at.getD now
        some (pe + (now - pausedAt))
    | none => lic.expires_at
  { lic with
      is_paused := 0, paused_at := none, paused_expires_at := none,
      expires_at := newExpiresAt }

/-- Result of the two extend handlers. -/
inductive ExtendOutcome where
  | missingParamsErr
  | unlimitedErr
  | noDurationErr
  | expiredErr
  | extended (newExpiresAt : Int)
deriving DecidableEq, Repr

/-- Whether an extend outcome is the success case. -/
def ExtendOutcome.isExtended : ExtendOutcome → Bool
  | .extended _ => true
  | _ => false

/-- Model of `/api/licenses/extend` (src/server.js:2611) after the row lookup
succeeded: reject unlimited licenses; for a never-activated license compute
`currentExpiry` from the license's own configured duration (rejecting when no
duration is set), else `currentExpiry = expires_at`; reject when
`currentExpiry <= now`; otherwise the new expiry is
`max(currentExpiry, now) + additional_days` days, and `duration_value` is
bumped by `additional_days` (coalescing null to 0). -/
def extendLicenseByDays (lic : LicenseRow) (additionalDays now : Int) :
    ExtendOutcome × LicenseRow :=
  if lic.is_unlimited = 1 then (.unlimitedErr, lic)
  else
    let currentExpiry? : Option Int :=
      match lic.expires_at with
      | none =>
          if intTruthy lic.duration_value = true ∧ strTruthy lic.duration_unit = true then
            some (calcExpiration now (lic.duration_value.getD 0) (lic.duration_unit.getD ""))
          else none
      | some e => some e
    match currentExpiry? with
    | none => (.noDurationErr, lic)
    | some ce =>
        if ce ≤ now then (.expiredErr, lic)
        else
          let base := if ce > now then ce else now
          let newExpiry := base + additionalDays * 86400000
          (.extended newExpiry,
            { lic with
                expires_at := some newExpiry,
                duration_value := some (lic.duration_value.getD 0 + additionalDays) })

/-- Model of `/api/licenses/:licenseKey/extend` (src/server.js:3891) after
the row lookup succeeded: the request must carry a truthy `duration_value`
and `duration_unit`; reject unlimited licenses; reject when the stored expiry
is at or before now; otherwise, for an activated license the new expiry is
`expires_at + (calculateExpirationDate(value, unit) - now)`, and for a
never-activated license it is `calculateExpirationDate(value, unit)` alone
(the license's own configured duration is not consulted). -/
def extendLicenseByDuration (lic : LicenseRow) (durationValue : Int)
    (durationUnit : String) (now : Int) : ExtendOutcome × LicenseRow :=
  if durationValue = 0 ∨ durationUnit = "" then (.missingParamsErr, lic)
  else if lic.is_unlimited = 1 then (.unlimitedErr, lic)
  else
    match lic.expires_at with
    | some e =>
        if e ≤ now then (.expiredErr, lic)
        else
          let additionalTime := calcExpiration now durationValue durationUnit
          let newExpiresAt := e + (additionalTime - now)
          (.extended newExpiresAt, { lic with expires_at := some newExpiresAt })
    | none =>
        let newExpiresAt := calcExpiration now durationValue durationUnit
        (.extended newExpiresAt, { lic with expires_at := some newExpiresAt })

/-- Base character class of the key generator: always included. -/
def lowercaseChars : List Char := "abcdefghijklmnopqrstuvwxyz".data

/-- Uppercase class, added when the `bigLetters` toggle is on. -/
def uppercaseChars : List Char := "ABCDEFGHIJKLMNOPQRSTUVWXYZ".data

/-- Digit class, added when the `digits` toggle is on. -/
def digitChars : List Char := "0123456789".data

/-- Special-character class, added when the `specialChars` toggle is on. -/
def specialCharList : List Char := "!@#$%^&*".data

/-- Fallback alphabet of the generator's empty-set safety check. -/
def fallbackChars : List Char := "abcdefghijklmnopqrstuvwxyz0123456789".data

/-- The character-class toggles of the license format configuration. -/
structure FormatOptions where
  bigLetters : Bool
  digits : Bool
  specialChars : Bool
deriving DecidableEq, Repr

/-- The character set built by `generateLicenseKey` (src/server.js:639):
lowercase base plus the additively toggled classes, with the hardcoded
fallback when the set would be empty. -/
def buildCharSet (opts : FormatOptions) : List Char :=
  let chars := lowercaseChars
    ++ (if opts.bigLetters then uppercaseChars else [])
    ++ (if opts.digits then digitChars else [])
    ++ (if opts.specialChars then specialCharList else [])
  if chars.isEmpty then fallbackChars else chars

/-- Model of the key-construction loop of `generateLicenseKey`: one random
byte per template position; a wildcard position takes the byte modulo the
character-set length as an index into the set, any other position copies the
template character literally. -/
def generateLicenseKey (format : List Char) (opts : FormatOptions)
    (randomBytes : List Nat) : List Char :=
  let chars := buildCharSet opts
  List.zipWith
    (fun c b => if c = '*' then chars.getD (b % chars.length) 'a' else c)
    format randomBytes

/-! ## Theorems -/

/-- One unit of any duration unit is a positive number of milliseconds. -/
theorem unitMillis_pos (u : String) : 0 < unitMillis u := by
  unfold unitMillis
  split_ifs <;> norm_num

/-- C8: `calculateExpirationDate` returns null if and only if `isUnlimited`;
otherwise it returns now plus the value in the given unit (seconds, minutes,
hours, days), and an unrecognized unit behaves exactly like days. -/
theorem calculateExpirationDate_spec (now v : Int) (u : String) :
    (∀ ul : Bool, calculateExpirationDate now v u ul = none ↔ ul = true) ∧
    calculateExpirationDate now v "seconds" false = some (now + v * 1000) ∧
    calculateExpirationDate now v "minutes" false = some (now + v * 60000) ∧
    calculateExpirationDate now v "hours" false = some (now + v * 3600000) ∧
    calculateExpirationDate now v "days" false = some (now + v * 86400000) ∧
    (u ≠ "seconds" → u ≠ "minutes" → u ≠ "hours" →
      calculateExpirationDate now v u false = calculateExpirationDate now v "days" false) := by
  refine ⟨fun ul => ?_, ?_, ?_, ?_, ?_, fun h1 h2 h3 => ?_⟩
  · cases ul <;> simp [calculateExpirationDate]
  · simp [calculateExpirationDate, calcExpiration, unitMillis]
  · simp [calculateExpirationDate, calcExpiration, unitMillis]
  · simp [calculateExpirationDate, calcExpiration, unitMillis]
  · simp [calculateExpirationDate, calcExpiration, unitMillis]
  · simp [calculateExpirationDate, calcExpiration, unitMillis, h1, h2, h3]

/-- C8 witness: at now = 0, value 2 and the unrecognized unit "weeks", the
calculator returns null when unlimited and otherwise behaves like days. -/
theorem calculateExpirationDate_spec_witness :
    calculateExpirationDate 0 2 "weeks" true = none ∧
    calculateExpirationDate 0 2 "weeks" false = calculateExpirationDate 0 2 "days" false ∧
    calculateExpirationDate 0 2 "days" false = some (0 + 2 * 86400000) := by
  obtain ⟨h1, _, _, _, h5, h6⟩ := calculateExpirationDate_spec 0 2 "weeks"
  exact ⟨(h1 true).mpr rfl, h6 (by decide) (by decide) (by decide), h5⟩

/-- C2: resuming a license paused at instant P with snapshot
`paused_expires_at = E` at instant R sets `expires_at` to exactly
`E + (R - P)`, so a pause of duration Δ regains exactly Δ of validity; when
`paused_expires_at` is null, resume leaves `expires_at` as it was (its
current value if set, else null). -/
theorem unpause_restores_elapsed (lic : LicenseRow) (resumeAt : Int) :
    (∀ pausedAt snapshot : Int,
      lic.paused_at = some pausedAt → lic.paused_expires_at = some snapshot →
        (unpauseLicense lic resumeAt).expires_at = some (snapshot + (resumeAt - pausedAt))) ∧
    (lic.paused_expires_at = none →
      (unpauseLicense lic resumeAt).expires_at = lic.expires_at) := by
  constructor
  · intro pausedAt snapshot hP hE
    simp [unpauseLicense, hP, hE]
  · intro hE
    simp [unpauseLicense, hE]

/-- C2 witness: a license paused at 100 with snapshot 500, resumed at 130,
ends with expiry 530 = 500 + (130 - 100). -/
theorem unpause_restores_elapsed_witness :
    (unpauseLicense
        { is_paused := 1, paused_at := some 100, paused_expires_at := some 500 }
        130).expires_at = some (500 + (130 - 100)) :=
  (unpause_restores_elapsed
      { is_paused := 1, paused_at := some 100, paused_expires_at := some 500 } 130).1
    100 500 rfl rfl

/-- C1 (amended): for a found license row that is banned, the check never
returns the expired rejection; and whenever the version-mismatch gate (the
only decision evaluated before the ban test) does not fire, the result is
exactly the banned rejection — the ban test terminates the check before the
expiry comparison is reached. -/
theorem banned_beats_expired (lic : LicenseRow) (app : ApplicationRow)
    (req : CheckRequest) (now e : Int)
    (hban : lic.is_banned = 1) (_hexp : lic.expires_at = some e) (_hpast : e < now) :
    (checkLicense lic app req now).result ≠ .expiredReject ∧
    (versionGateFires app req = false →
      (checkLicense lic app req now).result = .bannedReject) := by
  unfold checkLicense
  by_cases hv : versionGateFires app req = true
  · simp [hv]
  · simp [hv, hban]

/-- C1 witness: a banned license, expired at 0 and checked at 10 with no
version information in the request, is rejected as banned. -/
theorem banned_beats_expired_witness :
    (checkLicense { is_banned := 1, expires_at := some 0 } { } { } 10).result =
      .bannedReject ∧
    (checkLicense { is_banned := 1, expires_at := some 0 } { } { } 10).result ≠
      .expiredReject := by
  have h := banned_beats_expired { is_banned := 1, expires_at := some 0 } { } { } 10 0
    rfl rfl (by decide)
  exact ⟨h.2 (by decide), h.1⟩

/-- C1 counterexample: a banned-and-expired license checked with a mismatching
`app_version` returns the version-mismatch rejection, not the banned one, so
the claim as stated (every banned-and-expired check returns "banned") fails. -/
theorem banned_beats_expired_counterexample :
    ({ is_banned := 1, expires_at := some 0 } : LicenseRow).is_banned = 1 ∧
    (0 : Int) < 10 ∧
    (checkLicense { is_banned := 1, expires_at := some 0 } { version := some "1.0" }
        { app_version := some "2.0" } 10).result = .versionMismatch ∧
    (checkLicense { is_banned := 1, expires_at := some 0 } { version := some "1.0" }
        { app_version := some "2.0" } 10).result ≠ .bannedReject := by decide

/-- C5: an extend request on an unlimited license, or on a license whose
stored expiry is already in the past, is rejected by both extend endpoints
and leaves the license row unchanged; the domain checks run identically for
admin and owner callers (authorization only scopes the row lookup). -/
theorem extend_rejects_unlimited_and_expired (lic : LicenseRow)
    (additionalDays durationValue now : Int) (durationUnit : String)
    (h : lic.is_unlimited = 1 ∨ ∃ e, lic.expires_at = some e ∧ e < now) :
    (extendLicenseByDays lic additionalDays now).1.isExtended = false ∧
    (extendLicenseByDays lic additionalDays now).2 = lic ∧
    (extendLicenseByDuration lic durationValue durationUnit now).1.isExtended = false ∧
    (extendLicenseByDuration lic durationValue durationUnit now).2 = lic := by
  rcases h with hu | ⟨e, he, hlt⟩
  · refine ⟨?_, ?_, ?_, ?_⟩ <;>
      simp only [extendLicenseByDays, extendLicenseByDuration, hu] <;>
      split_ifs <;> simp [ExtendOutcome.isExtended]
  · refine ⟨?_, ?_, ?_, ?_⟩ <;>
      simp only [extendLicenseByDays, extendLicenseByDuration, he] <;>
      split_ifs with h1 h2 <;>
      simp_all [ExtendOutcome.isExtended] <;> omega

/-- C5 witness: an unlimited license is untouched and not extended by either
endpoint. -/
theorem extend_rejects_unlimited_and_expired_witness :
    (extendLicenseByDays { is_unlimited := 1 } 3 0).1.isExtended = false ∧
    (extendLicenseByDays { is_unlimited := 1 } 3 0).2 = { is_unlimited := 1 } ∧
    (extendLicenseByDuration { is_unlimited := 1 } 5 "days" 0).1.isExtended = false ∧
    (extendLicenseByDuration { is_unlimited := 1 } 5 "days" 0).2 = { is_unlimited := 1 } :=
  extend_rejects_unlimited_and_expired { is_unlimited := 1 } 3 5 0 "days" (Or.inl rfl)


/-- The pause expired-gate fires exactly for a non-unlimited license with a
stored expiry at or before now. -/
theorem pauseExpiredGate_eq (lic : LicenseRow) (now : Int) :
    pauseExpiredGate lic now = true ↔
      (lic.is_unlimited ≠ 1 ∧ ∃ e, lic.expires_at = some e ∧ e ≤ now) := by
  unfold pauseExpiredGate
  rcases hE : lic.expires_at with _ | e <;> simp [timeTruthy, hE]

/-- C3 (amended): pause succeeds iff the license is active, not banned, and
(unlimited, or never activated, or its expiry is strictly in the future); on
any rejection the license row is unchanged.  There is no already-paused
check: pausing an already-paused license succeeds again. -/
theorem pause_preconditions (lic : LicenseRow) (now : Int) :
    ((pauseLicense lic now).1 = .paused ↔
      (lic.is_active = 1 ∧ lic.is_banned ≠ 1 ∧
        (lic.is_unlimited = 1 ∨ ∀ e : Int, lic.expires_at = some e → now < e))) ∧
    ((pauseLicense lic now).1 ≠ .paused → (pauseLicense lic now).2 = lic) := by
  have hgate := pauseExpiredGate_eq lic now
  constructor
  · unfold pauseLicense
    split_ifs with h1 h2 h3
    · simp [h1]
    · simp [h2]
    · rw [hgate] at h3
      obtain ⟨hu, e, he, hle⟩ := h3
      refine iff_of_false (by simp) ?_
      rintro ⟨-, -, hc | hc⟩
      · exact hu hc
      · exact absurd (hc e he) (by omega)
    · rw [hgate] at h3
      push_neg at h3
      refine iff_of_true rfl ⟨by omega, h2, ?_⟩
      by_cases hu : lic.is_unlimited = 1
      · exact Or.inl hu
      · exact Or.inr fun e he => h3 hu e he
  · unfold pauseLicense
    split_ifs <;> simp

/-- C3 witness: a fresh default license (active, unbanned, never activated)
is pausable. -/
theorem pause_preconditions_witness :
    (pauseLicense ({ } : LicenseRow) 0).1 = .paused :=
  ((pause_preconditions { } 0).1).mpr ⟨rfl, by decide, Or.inr fun e he => nomatch he⟩

/-- C3 counterexample: an already-paused (active, unbanned, unlimited)
license is paused again with success, and its row changes (the pause
snapshot is overwritten), refuting the claim that pausing an already-paused
license is rejected with the record unchanged. -/
theorem pause_preconditions_counterexample :
    ({ is_paused := 1, is_unlimited := 1, paused_at := some 0 } : LicenseRow).is_paused = 1 ∧
    (pauseLicense { is_paused := 1, is_unlimited := 1, paused_at := some 0 } 10).1 = .paused ∧
    (pauseLicense { is_paused := 1, is_unlimited := 1, paused_at := some 0 } 10).2 ≠
      { is_paused := 1, is_unlimited := 1, paused_at := some 0 } := by decide

/-- C4 (amended): extending a never-activated duration-based license through
the additional-days endpoint first activates it with its own configured
duration and then adds the requested days on top
(`expires_at = (now + configured duration) + D days`); the per-key endpoint
instead sets `expires_at = now + requested duration` alone, ignoring the
configured duration. -/
theorem extend_unactivated_activates (lic : LicenseRow)
    (cfgValue additionalDays reqValue now : Int) (cfgUnit reqUnit : String)
    (hexp : lic.expires_at = none) (hunl : lic.is_unlimited ≠ 1)
    (hdv : lic.duration_value = some cfgValue) (hpos : 0 < cfgValue)
    (hdu : lic.duration_unit = some cfgUnit) (hne : cfgUnit ≠ "") :
    (extendLicenseByDays lic additionalDays now).1 =
      .extended (calcExpiration now cfgValue cfgUnit + additionalDays * 86400000) ∧
    (extendLicenseByDays lic additionalDays now).2.expires_at =
      some (calcExpiration now cfgValue cfgUnit + additionalDays * 86400000) ∧
    (reqValue ≠ 0 → reqUnit ≠ "" →
      (extendLicenseByDuration lic reqValue reqUnit now).1 =
        .extended (calcExpiration now reqValue reqUnit) ∧
      (extendLicenseByDuration lic reqValue reqUnit now).2.expires_at =
        some (calcExpiration now reqValue reqUnit)) := by
  have hmul : 0 < cfgValue * unitMillis cfgUnit := mul_pos hpos (unitMillis_pos cfgUnit)
  have hgt : now < calcExpiration now cfgValue cfgUnit := by
    unfold calcExpiration; linarith
  have hfirst : extendLicenseByDays lic additionalDays now =
      (.extended (calcExpiration now cfgValue cfgUnit + additionalDays * 86400000),
        { lic with
            expires_at := some (calcExpiration now cfgValue cfgUnit + additionalDays * 86400000),
            duration_value := some (cfgValue + additionalDays) }) := by
    simp [extendLicenseByDays, hexp, hdv, hdu, hunl, intTruthy, strTruthy, hpos.ne', hne,
      not_le.mpr hgt, hgt]
  refine ⟨by rw [hfirst], by rw [hfirst], fun hrv hru => ?_⟩
  have hsecond : extendLicenseByDuration lic reqValue reqUnit now =
      (.extended (calcExpiration now reqValue reqUnit),
        { lic with expires_at := some (calcExpiration now reqValue reqUnit) }) := by
    simp [extendLicenseByDuration, hexp, hunl, hrv, hru]
  exact ⟨by rw [hsecond], by rw [hsecond]⟩

/-- C4 witness: a never-activated 5-day license at now = 0: the
additional-days endpoint with 3 days yields 8 days of validity; the per-key
endpoint asked for 3 days yields only 3 days. -/
theorem extend_unactivated_activates_witness :
    (extendLicenseByDays { duration_value := some 5, duration_unit := some "days" } 3 0).1 =
      .extended (calcExpiration 0 5 "days" + 3 * 86400000) ∧
    (extendLicenseByDuration { duration_value := some 5, duration_unit := some "days" }
        3 "days" 0).2.expires_at = some (calcExpiration 0 3 "days") := by
  have h := extend_unactivated_activates
    { duration_value := some 5, duration_unit := some "days" } 5 3 3 0 "days" "days"
    rfl (by decide) rfl (by decide) rfl (by decide)
  exact ⟨h.1, (h.2.2 (by decide) (by decide)).2⟩

/-- C4 counterexample: for the never-activated 5-day license above, the
per-key extend endpoint asked for 3 days sets
`expires_at = now + 3 days = 259200000`, not
`(now + 5 days) + 3 days = 691200000` as the claim states. -/
theorem extend_unactivated_activates_counterexample :
    (extendLicenseByDuration { duration_value := some 5, duration_unit := some "days" }
        3 "days" 0).2.expires_at = some 259200000 ∧
    (259200000 : Int) ≠ 691200000 := by decide


/-- C6 (amended): a check of a found, active, non-banned, non-paused,
never-activated duration license on a hardware-lock-enabled application, with
no version mismatch and a missing or blank hwid, returns the hwid-required
rejection and performs no write at all: the license row is unchanged (so
`expires_at` and `locked_hwid` stay null) and the usage cache is not
touched. -/
theorem hwid_required_no_write (lic : LicenseRow) (app : ApplicationRow)
    (req : CheckRequest) (now : Int)
    (hvg : versionGateFires app req = false)
    (hban : lic.is_banned ≠ 1) (hpau : lic.is_paused ≠ 1) (hact : lic.is_active ≠ 0)
    (hunl : lic.is_unlimited = 0) (hexp : lic.expires_at = none)
    (hdv : intTruthy lic.duration_value = true) (hdu : strTruthy lic.duration_unit = true)
    (hlock : hwidLockOf app = true) (hmiss : jsHwidMissing req.hwid = true) :
    (checkLicense lic app req now).result = .hwidRequired ∧
    (checkLicense lic app req now).lic = lic ∧
    (checkLicense lic app req now).usageWritten = false := by
  unfold checkLicense
  simp [hvg, hban, hpau, hact, hunl, hexp, hdv, hdu, hlock, hmiss]

/-- C6 witness: a never-activated 5-day license on a locked application,
checked without a hwid, is rejected hwid-required and left untouched. -/
theorem hwid_required_no_write_witness :
    (checkLicense { duration_value := some 5, duration_unit := some "days" }
        { hwid_lock_enabled := some 1 } { } 0).result = .hwidRequired ∧
    (checkLicense { duration_value := some 5, duration_unit := some "days" }
        { hwid_lock_enabled := some 1 } { } 0).lic =
      { duration_value := some 5, duration_unit := some "days" } ∧
    (checkLicense { duration_value := some 5, duration_unit := some "days" }
        { hwid_lock_enabled := some 1 } { } 0).usageWritten = false :=
  hwid_required_no_write { duration_value := some 5, duration_unit := some "days" }
    { hwid_lock_enabled := some 1 } { } 0 (by decide) (by decide) (by decide) (by decide)
    rfl rfl (by decide) (by decide) (by decide) (by decide)

/-- C6 counterexample: a banned never-activated duration license on a
hardware-lock-enabled application, checked with a missing hwid, returns the
banned rejection, not hwid-required — the claim as stated omits the earlier
precedence gates. -/
theorem hwid_required_no_write_counterexample :
    (checkLicense { is_banned := 1, duration_value := some 5, duration_unit := some "days" }
        { hwid_lock_enabled := some 1 } { } 0).result = .bannedReject ∧
    CheckResult.bannedReject ≠ .hwidRequired := by decide

/-- C7 (amended): a check of a found, active, non-banned, non-paused,
never-activated duration license on a hardware-lock-enabled application, with
no version mismatch and a non-blank hwid, succeeds in that one call and
activates the license: `expires_at` becomes now plus the configured duration
and `locked_hwid` becomes the provided hwid. -/
theorem activation_binds_hwid (lic : LicenseRow) (app : ApplicationRow)
    (req : CheckRequest) (now cfgValue : Int) (cfgUnit hw : String)
    (hvg : versionGateFires app req = false)
    (hban : lic.is_banned ≠ 1) (hpau : lic.is_paused ≠ 1) (hact : lic.is_active ≠ 0)
    (hunl : lic.is_unlimited = 0) (hexp : lic.expires_at = none)
    (hdv : lic.duration_value = some cfgValue) (hv0 : cfgValue ≠ 0)
    (hdu : lic.duration_unit = some cfgUnit) (hu0 : cfgUnit ≠ "")
    (hlock : hwidLockOf app = true)
    (hhw : req.hwid = some hw) (htrim : jsTrim hw ≠ "") :
    (checkLicense lic app req now).result.isSuccess = true ∧
    (checkLicense lic app req now).lic.expires_at =
      some (calcExpiration now cfgValue cfgUnit) ∧
    (checkLicense lic app req now).lic.locked_hwid = some hw ∧
    (checkLicense lic app req now).usageWritten = true := by
  have hne : hw ≠ "" := fun h0 => htrim (by rw [h0]; rfl)
  unfold checkLicense
  simp [hvg, hban, hpau, hact, hunl, hexp, hdv, hv0, hdu, hu0, hlock, hhw, hne, htrim,
    intTruthy, strTruthy, jsHwidMissing, CheckResult.isSuccess]

/-- C7 witness: a never-activated 5-day license on a locked application,
checked with hwid "H1" at now = 0, is accepted, activated to 5 days and
bound to "H1". -/
theorem activation_binds_hwid_witness :
    (checkLicense { duration_value := some 5, duration_unit := some "days" }
        { hwid_lock_enabled := some 1 } { hwid := some "H1" } 0).result.isSuccess = true ∧
    (checkLicense { duration_value := some 5, duration_unit := some "days" }
        { hwid_lock_enabled := some 1 } { hwid := some "H1" } 0).lic.expires_at =
      some (calcExpiration 0 5 "days") ∧
    (checkLicense { duration_value := some 5, duration_unit := some "days" }
        { hwid_lock_enabled := some 1 } { hwid := some "H1" } 0).lic.locked_hwid =
      some "H1" ∧
    (checkLicense { duration_value := some 5, duration_unit := some "days" }
        { hwid_lock_enabled := some 1 } { hwid := some "H1" } 0).usageWritten = true :=
  activation_binds_hwid { duration_value := some 5, duration_unit := some "days" }
    { hwid_lock_enabled := some 1 } { hwid := some "H1" } 0 5 "days" "H1"
    (by decide) (by decide) (by decide) (by decide) rfl rfl rfl (by decide) rfl
    (by decide) (by decide) rfl (by decide)

/-- C7 counterexample: the hwid " " is non-empty, yet the same check is
rejected hwid-required (the handler trims the hwid) and the license is not
activated, refuting the claim for whitespace-only hwids. -/
theorem activation_binds_hwid_counterexample :
    (some " " : Option String) ≠ none ∧ (" " : String) ≠ "" ∧
    (checkLicense { duration_value := some 5, duration_unit := some "days" }
        { hwid_lock_enabled := some 1 } { hwid := some " " } 0).result = .hwidRequired ∧
    (checkLicense { duration_value := some 5, duration_unit := some "days" }
        { hwid_lock_enabled := some 1 } { hwid := some " " } 0).lic.expires_at = none := by
  decide


/-- The generator character set is exactly the lowercase base plus the
additively enabled classes (the empty-set fallback is unreachable: the base
is never empty). -/
theorem buildCharSet_eq (opts : FormatOptions) :
    buildCharSet opts = lowercaseChars
      ++ (if opts.bigLetters then uppercaseChars else [])
      ++ (if opts.digits then digitChars else [])
      ++ (if opts.specialChars then specialCharList else []) := by
  obtain ⟨b, d, s⟩ := opts
  cases b <;> cases d <;> cases s <;> rfl

/-- The generator character set is nonempty. -/
theorem buildCharSet_length_pos (opts : FormatOptions) : 0 < (buildCharSet opts).length := by
  obtain ⟨b, d, s⟩ := opts
  cases b <;> cases d <;> cases s <;> decide

/-- C9: with one random byte per template position, the generated key has the
template length, copies every non-wildcard template character literally into
the same position, and fills every wildcard position with a character of the
lowercase base set extended by exactly the enabled character classes. -/
theorem generateLicenseKey_spec (format : List Char) (opts : FormatOptions)
    (randomBytes : List Nat) (hlen : randomBytes.length = format.length) :
    (generateLicenseKey format opts randomBytes).length = format.length ∧
    ∀ i : Nat, i < format.length →
      (format.getD i ' ' ≠ '*' →
        (generateLicenseKey format opts randomBytes).getD i ' ' = format.getD i ' ') ∧
      (format.getD i ' ' = '*' →
        (generateLicenseKey format opts randomBytes).getD i ' ' ∈
          lowercaseChars
            ++ (if opts.bigLetters then uppercaseChars else [])
            ++ (if opts.digits then digitChars else [])
            ++ (if opts.specialChars then specialCharList else [])) := by
  have hunfold : generateLicenseKey format opts randomBytes =
      List.zipWith
        (fun c b => if c = '*' then
            (buildCharSet opts).getD (b % (buildCharSet opts).length) 'a'
          else c)
        format randomBytes := rfl
  have hzlen : (generateLicenseKey format opts randomBytes).length = format.length := by
    rw [hunfold, List.length_zipWith, hlen, min_self]
  refine ⟨hzlen, fun i hi => ?_⟩
  have hib : i < randomBytes.length := by rw [hlen]; exact hi
  have hik : i < (generateLicenseKey format opts randomBytes).length := by
    rw [hzlen]; exact hi
  have hkey : (generateLicenseKey format opts randomBytes).getD i ' ' =
      if format.getD i ' ' = '*' then
        (buildCharSet opts).getD ((randomBytes.getD i 0) % (buildCharSet opts).length) 'a'
      else format.getD i ' ' := by
    rw [List.getD_eq_getElem _ _ hik, List.getD_eq_getElem _ _ hi,
      List.getD_eq_getElem _ _ hib]
    simp only [hunfold]
    exact List.getElem_zipWith
  constructor
  · intro hne
    rw [hkey, if_neg hne]
  · intro hstar
    rw [hkey, if_pos hstar]
    have hpos := buildCharSet_length_pos opts
    have hidx : (randomBytes.getD i 0) % (buildCharSet opts).length <
        (buildCharSet opts).length := Nat.mod_lt _ hpos
    rw [List.getD_eq_getElem _ _ hidx, ← buildCharSet_eq]
    exact List.getElem_mem hidx

/-- C9 witness: the 6-position template "VA-***" with digits enabled keeps
its literal prefix and fills the wildcards from the lowercase-plus-digits
set. -/
theorem generateLicenseKey_spec_witness :
    (generateLicenseKey "VA-***".data ⟨false, true, false⟩ [9, 9, 9, 100, 200, 35]).getD 0 ' ' =
      'V' ∧
    (generateLicenseKey "VA-***".data ⟨false, true, false⟩ [9, 9, 9, 100, 200, 35]).getD 3 ' ' ∈
      lowercaseChars
        ++ (if (⟨false, true, false⟩ : FormatOptions).bigLetters then uppercaseChars else [])
        ++ (if (⟨false, true, false⟩ : FormatOptions).digits then digitChars else [])
        ++ (if (⟨false, true, false⟩ : FormatOptions).specialChars then specialCharList
            else []) := by
  have h := generateLicenseKey_spec "VA-***".data ⟨false, true, false⟩ [9, 9, 9, 100, 200, 35]
    (by decide)
  exact ⟨(h.2 0 (by decide)).1 (by decide), (h.2 3 (by decide)).2 (by decide)⟩



/-- The activated-branch tail rejects as expired exactly when now is past the
stored expiry. -/
theorem activatedTail_expired_iff (lic1 : LicenseRow) (e now : Int) :
    (activatedTail lic1 e now).result = .expiredReject ↔ e < now := by
  unfold activatedTail
  split_ifs with h <;> simp [h]

/-- On the expired path the activated-branch tail returns the hwid-mutated
row untouched further and skips the usage upsert. -/
theorem activatedTail_eq_of_expired (lic1 : LicenseRow) (e now : Int) (h : e < now) :
    activatedTail lic1 e now = ⟨.expiredReject, lic1, false⟩ := by
  unfold activatedTail
  rw [if_pos h]

/-- Shape of the check on an already-activated license once the version, ban,
pause and inactive gates have all fallen through: hardware-lock sub-policy,
then the expiry tail. -/
theorem checkLicense_activated_shape (lic : LicenseRow) (app : ApplicationRow)
    (req : CheckRequest) (now e : Int) (hexp : lic.expires_at = some e)
    (hvg : versionGateFires app req = false) (hban : lic.is_banned ≠ 1)
    (hpau : lic.is_paused ≠ 1) (hact : lic.is_active ≠ 0) :
    checkLicense lic app req now =
      if hwidLockOf app = true then
        if strTruthy lic.locked_hwid = false then
          activatedTail
            (if strTruthy req.hwid = true then { lic with locked_hwid := req.hwid } else lic)
            e now
        else if lic.locked_hwid ≠ req.hwid then ⟨.hwidMismatch, lic, false⟩
        else activatedTail lic e now
      else
        activatedTail
          (if strTruthy lic.locked_hwid = true then { lic with locked_hwid := none } else lic)
          e now := by
  unfold checkLicense
  simp [hvg, hban, hpau, hact, hexp]

/-- C10: when a check of an already-activated license is ultimately rejected
as expired, the hardware-lock sub-policy has already run its `locked_hwid`
writes — binding the provided hwid when the lock is enabled and nothing is
bound yet, clearing the binding when the lock is disabled — and only the
usage-cache upsert is skipped; `expires_at` is untouched. -/
theorem expired_reject_still_mutates_hwid (lic : LicenseRow) (app : ApplicationRow)
    (req : CheckRequest) (now e : Int)
    (hexp : lic.expires_at = some e)
    (hwf : lic.locked_hwid ≠ some "")
    (hres : (checkLicense lic app req now).result = .expiredReject) :
    (checkLicense lic app req now).lic.locked_hwid =
      (if hwidLockOf app = true then
        (if lic.locked_hwid = none ∧ strTruthy req.hwid = true then req.hwid
         else lic.locked_hwid)
       else none) ∧
    (checkLicense lic app req now).lic.expires_at = lic.expires_at ∧
    (checkLicense lic app req now).usageWritten = false := by
  have hvg : versionGateFires app req = false := by
    cases h : versionGateFires app req
    · rfl
    · rw [checkLicense] at hres
      simp [h] at hres
  have hban : lic.is_banned ≠ 1 := by
    intro h
    rw [checkLicense] at hres
    simp [hvg, h] at hres
  have hpau : lic.is_paused ≠ 1 := by
    intro h
    rw [checkLicense] at hres
    simp [hvg, hban, h] at hres
  have hact : lic.is_active ≠ 0 := by
    intro h
    rw [checkLicense] at hres
    simp [hvg, hban, hpau, h] at hres
  have hshape := checkLicense_activated_shape lic app req now e hexp hvg hban hpau hact
  have hnone : strTruthy lic.locked_hwid = false ↔ lic.locked_hwid = none := by
    rcases h : lic.locked_hwid with _ | s
    · simp [strTruthy]
    · rw [h] at hwf
      simp only [strTruthy, bne_eq_false_iff_eq, Option.some.injEq]
      constructor
      · intro h0
        exact absurd (by rw [h0]) hwf
      · intro h0
        cases h0
  rw [hshape] at hres ⊢
  split_ifs at hres ⊢ with h1 h2 h3 h4 h5 h6 h7 h8 <;>
    first
      | simp at hres
      | · have hlt := (activatedTail_expired_iff _ e now).mp hres
          rw [activatedTail_eq_of_expired _ e now hlt]
          simp_all [strTruthy]

/-- C10 witness: an expired (at 0, checked at 10) license with no binding on
a lock-enabled application, checked with hwid "H1": the check is rejected as
expired, yet "H1" is bound and the usage cache is skipped. -/
theorem expired_reject_still_mutates_hwid_witness :
    (checkLicense { expires_at := some 0 } { hwid_lock_enabled := some 1 }
        { hwid := some "H1" } 10).lic.locked_hwid =
      (if hwidLockOf { hwid_lock_enabled := some 1 } = true then
        (if ({ expires_at := some 0 } : LicenseRow).locked_hwid = none ∧
            strTruthy ({ hwid := some "H1" } : CheckRequest).hwid = true then
          ({ hwid := some "H1" } : CheckRequest).hwid
         else ({ expires_at := some 0 } : LicenseRow).locked_hwid)
       else none) ∧
    (checkLicense { expires_at := some 0 } { hwid_lock_enabled := some 1 }
        { hwid := some "H1" } 10).lic.expires_at =
      ({ expires_at := some 0 } : LicenseRow).expires_at ∧
    (checkLicense { expires_at := some 0 } { hwid_lock_enabled := some 1 }
        { hwid := some "H1" } 10).usageWritten = false :=
  expired_reject_still_mutates_hwid { expires_at := some 0 } { hwid_lock_enabled := some 1 }
    { hwid := some "H1" } 10 0 rfl (by decide) (by decide)

end LicenseServer
